import Mathlib

/-!
Verification of the OAuth credential manager, handshake controller,
resilient API wrappers and connection singleton of the AI-Agent
repository, as a shallow embedding in Lean.

Conventions used throughout:
* Machine integers of the source are modelled as `Nat` (all the relevant
  quantities - epoch milliseconds, status codes, counters - are
  non-negative and far from any overflow boundary; differences are taken
  in `Int`).
* JavaScript truthiness is modelled explicitly: for a string the empty
  string is falsy, for a number the number 0 is falsy, and an absent
  (`undefined`/`null`) field is falsy.  Optional fields are `Option`.
* Network and database effects are modelled by environments: a function
  from the index of the side-effecting call to its outcome, so the
  embedded control flow is a pure function of the environment.
-/

set_option autoImplicit false

namespace AIAgent

/-- JavaScript truthiness of an optional string field: absent and the
empty string are falsy. -/
def truthyOS (o : Option String) : Bool :=
  match o with
  | none => false
  | some s => s ≠ ""

/-- JavaScript truthiness of a string: the empty string is falsy. -/
def truthyS (s : String) : Bool := s ≠ ""

/-- JavaScript truthiness of an optional numeric field: absent and the
number 0 are falsy. -/
def truthyON (o : Option Nat) : Bool :=
  match o with
  | none => false
  | some n => n ≠ 0

/-- Stored OAuth token record, the `GoogleTokens` interface of
`src/db/models/User.ts`: all five fields are required, `expiry_date` is
an epoch-milliseconds timestamp. -/
structure GoogleTokens where
  access_token : String
  refresh_token : String
  scope : String
  token_type : String
  expiry_date : Nat
  deriving Repr, DecidableEq

/-! ## Credential manager: refresh decision (`getOAuth2ClientForUser`) -/

/-- `const refreshBuffer = 5 * 60 * 1000` of `getOAuth2ClientForUser`:
five minutes in milliseconds. -/
def REFRESH_BUFFER : Nat := 5 * 60 * 1000

/-- `const isExpired = tokens.expiry_date && tokens.expiry_date < now`:
the truthiness guard on `expiry_date` makes a zero expiry falsy. -/
def isExpired (now e : Nat) : Bool :=
  (e != 0) && decide (e < now)

/-- `const isExpiringSoon = tokens.expiry_date && tokens.expiry_date - now < refreshBuffer`. -/
def isExpiringSoon (now e : Nat) : Bool :=
  (e != 0) && decide ((e : Int) - (now : Int) < (REFRESH_BUFFER : Int))

/-- `if (isExpired || isExpiringSoon)`: the refresh decision of
`getOAuth2ClientForUser`. -/
def needsRefresh (now e : Nat) : Bool :=
  isExpired now e || isExpiringSoon now e

/-! ## Credential manager: token refresh loop (`getOAuth2ClientForUser`) -/

/-- Credentials object returned by the provider token-refresh endpoint
(the googleapis `Credentials` shape): every field may be absent. -/
structure RefreshCreds where
  access_token : Option String := none
  refresh_token : Option String := none
  scope : Option String := none
  token_type : Option String := none
  expiry_date : Option Nat := none
  expires_in : Option Nat := none
  deriving Repr, DecidableEq

/-- Environment outcome of one iteration of the refresh retry loop:
either `refreshAccessToken()` rejected with an error carrying an
optional numeric `code` and a message, or it resolved with credentials,
in which case `persistOk` tells whether the subsequent
`userRepo.updateTokens` write succeeded, and `nowAt` is the value of
`Date.now()` during that iteration. -/
inductive RefreshAttempt where
  | provErr (code : Option Nat) (msg : String)
  | provOk (creds : RefreshCreds) (persistOk : Bool) (nowAt : Nat)
  deriving Repr, DecidableEq

/-- The new `expiry_date` computation of the refresh success path:
`if (credentialsWithExpiry.expiry_date) ... else if (credentialsWithExpiry.expires_in)
Date.now() + expires_in * 1000 else Date.now() + 3600 * 1000`.
Both guards are JS truthiness tests, so a zero value falls through. -/
def computeNewExpiry (c : RefreshCreds) (nowAt : Nat) : Nat :=
  if truthyON c.expiry_date then c.expiry_date.getD 0
  else if truthyON c.expires_in then nowAt + c.expires_in.getD 0 * 1000
  else nowAt + 3600 * 1000

/-- JavaScript `a || b` on an optional string against a default. -/
def orElseStr (o : Option String) (d : String) : String :=
  if truthyOS o then o.getD "" else d

/-- The `newTokens` record assembled on a successful refresh:
`refresh_token: credentials.refresh_token || tokens.refresh_token`, and
similarly for scope and token_type. -/
def mkNewTokens (old : GoogleTokens) (c : RefreshCreds) (nowAt : Nat) : GoogleTokens where
  access_token := (c.access_token).getD ""
  refresh_token := orElseStr c.refresh_token old.refresh_token
  scope := orElseStr c.scope old.scope
  token_type := orElseStr c.token_type old.token_type
  expiry_date := computeNewExpiry c nowAt

/-- `const maxRetries = 3` of the refresh loop. -/
def maxRetries : Nat := 3

def invalidGrantMsg : String :=
  "Refresh token is invalid or revoked. Please re-authenticate."

def auth401Msg : String :=
  "Authentication failed during token refresh. Please re-authenticate."

def missingAccessMsg : String :=
  "Invalid token response from Google: missing access_token"

def missingRefreshMsg : String :=
  "Invalid token response from Google: missing refresh_token"

def persistFailMsg : String :=
  "Failed to save refreshed tokens to database"

/-- The message of the throw after the loop exhausts its retries. -/
def exhaustedMsg (m : String) : String :=
  "Token refresh failed after 3 attempts: " ++ m ++ ". Please re-authenticate."

/-- Whether the first character list is an initial segment of the second. -/
def charListStartsWith : List Char → List Char → Bool
  | [], _ => true
  | _ :: _, [] => false
  | p :: ps, c :: cs => (p = c) && charListStartsWith ps cs

/-- Whether the first character list occurs contiguously in the second. -/
def charListHasSub (p : List Char) : List Char → Bool
  | [] => p.isEmpty
  | c :: cs => charListStartsWith p (c :: cs) || charListHasSub p cs

/-- `error.message?.includes(invalid_grant)` of the refresh catch block. -/
def includesInvalidGrant (msg : String) : Bool :=
  charListHasSub "invalid_grant".toList msg.toList

/-- Observable trace of the refresh section of `getOAuth2ClientForUser`:
the value of the `tokens` variable after the loop (or the thrown error),
the last record written to the credential store (if any), the number of
`refreshAccessToken` calls made, and the backoff delays slept in
milliseconds. -/
structure RefreshTrace where
  result : Except String GoogleTokens
  persisted : Option GoogleTokens
  providerCalls : Nat
  backoffs : List Nat
  deriving Repr

/-- `if (lastError) throw ...` after the loop; falling out with no
recorded error leaves the `tokens` variable at its pre-loop value.  The
loop never clears `lastError` on a later success, so this throw fires
even when a retry refreshed and persisted successfully. -/
def exhaustedResult (lastErr : Option String) (old : GoogleTokens) :
    Except String GoogleTokens :=
  match lastErr with
  | some m => Except.error (exhaustedMsg m)
  | none => Except.ok old

/-- One-for-one embedding of the retry loop of `getOAuth2ClientForUser`
(`for (let attempt = 1; attempt <= maxRetries; attempt++)`).  The fuel
argument counts the iterations still permitted by the loop bound;
`attempt` is the loop counter, `lastErr` the `lastError` variable,
`persisted` the credential-store content written by `updateTokens`,
`calls` the number of provider refresh calls so far and `backs` the
backoff delays slept so far.  A caught error retries after a
`Math.pow(2, attempt) * 1000` backoff while `attempt < maxRetries`;
`code === 400 || message.includes(invalid_grant)` and `code === 401`
throw immediately. -/
def refreshGo (old : GoogleTokens) (env : Nat → RefreshAttempt) :
    Nat → Nat → Option String → Option GoogleTokens → Nat → List Nat → RefreshTrace
  | 0, _, lastErr, persisted, calls, backs =>
      { result := exhaustedResult lastErr old, persisted := persisted,
        providerCalls := calls, backoffs := backs }
  | fuel + 1, attempt, lastErr, persisted, calls, backs =>
      match env attempt with
      | RefreshAttempt.provErr code msg =>
          if code = some 400 ∨ includesInvalidGrant msg then
            { result := Except.error invalidGrantMsg, persisted := persisted,
              providerCalls := calls + 1, backoffs := backs }
          else if code = some 401 then
            { result := Except.error auth401Msg, persisted := persisted,
              providerCalls := calls + 1, backoffs := backs }
          else if attempt < maxRetries then
            refreshGo old env fuel (attempt + 1) (some msg) persisted (calls + 1)
              (backs ++ [2 ^ attempt * 1000])
          else
            { result := exhaustedResult (some msg) old, persisted := persisted,
              providerCalls := calls + 1, backoffs := backs }
      | RefreshAttempt.provOk creds persistOk nowAt =>
          if ¬ truthyOS creds.access_token then
            (if attempt < maxRetries then
              refreshGo old env fuel (attempt + 1) (some missingAccessMsg) persisted
                (calls + 1) (backs ++ [2 ^ attempt * 1000])
            else
              { result := exhaustedResult (some missingAccessMsg) old,
                persisted := persisted, providerCalls := calls + 1, backoffs := backs })
          else if ¬ truthyOS creds.refresh_token ∧ ¬ truthyS old.refresh_token then
            (if attempt < maxRetries then
              refreshGo old env fuel (attempt + 1) (some missingRefreshMsg) persisted
                (calls + 1) (backs ++ [2 ^ attempt * 1000])
            else
              { result := exhaustedResult (some missingRefreshMsg) old,
                persisted := persisted, providerCalls := calls + 1, backoffs := backs })
          else
            (if persistOk then
              match lastErr with
              | some m =>
                  { result := Except.error (exhaustedMsg m),
                    persisted := some (mkNewTokens old creds nowAt),
                    providerCalls := calls + 1, backoffs := backs }
              | none =>
                  { result := Except.ok (mkNewTokens old creds nowAt),
                    persisted := some (mkNewTokens old creds nowAt),
                    providerCalls := calls + 1, backoffs := backs }
            else
              (if attempt < maxRetries then
                refreshGo old env fuel (attempt + 1) (some persistFailMsg) persisted
                  (calls + 1) (backs ++ [2 ^ attempt * 1000])
              else
                { result := exhaustedResult (some persistFailMsg) old,
                  persisted := persisted, providerCalls := calls + 1,
                  backoffs := backs }))

/-- The refresh loop as entered by `getOAuth2ClientForUser`: attempt 1,
no recorded error, nothing persisted yet. -/
def runRefresh (old : GoogleTokens) (env : Nat → RefreshAttempt) : RefreshTrace :=
  refreshGo old env maxRetries 1 none none 0 []

/-- Result of `getOAuth2ClientForUser`: a configured client carrying the
final token record, or a thrown error. -/
inductive ClientResult where
  | client (creds : GoogleTokens)
  | fatal (msg : String)
  deriving Repr, DecidableEq

/-- Observable trace of a whole `getOAuth2ClientForUser` call. -/
structure CallTrace where
  result : ClientResult
  persisted : Option GoogleTokens
  providerCalls : Nat
  backoffs : List Nat
  deriving Repr, DecidableEq

def noTokensMsg : String :=
  "No OAuth tokens found. Please re-authenticate."

def noRefreshTokenMsg : String :=
  "Access token expired and no refresh token available. Please re-authenticate."

def invalidAccessMsg : String :=
  "No valid access token found. Token may be expired and refresh failed. Please re-authenticate."

/-- The client construction and final validation at the tail of
`getOAuth2ClientForUser`: the access token must be a truthy string or
the call throws instead of returning a client. -/
def finalizeClient (t : GoogleTokens) (persisted : Option GoogleTokens)
    (calls : Nat) (backs : List Nat) : CallTrace :=
  if truthyS t.access_token then
    { result := ClientResult.client t, persisted := persisted,
      providerCalls := calls, backoffs := backs }
  else
    { result := ClientResult.fatal invalidAccessMsg, persisted := persisted,
      providerCalls := calls, backoffs := backs }

/-- `getOAuth2ClientForUser`, from the user record lookup onward (the
userId validation and database fetch are upstream of everything the
claims discuss; `stored` is the `user.tokens` field, `none` when the
record has no tokens).  `now` is `Date.now()` at the refresh decision;
`env` supplies the outcome of each refresh-loop iteration. -/
def getOAuth2ClientForUser (stored : Option GoogleTokens) (now : Nat)
    (env : Nat → RefreshAttempt) : CallTrace :=
  match stored with
  | none =>
      { result := ClientResult.fatal noTokensMsg, persisted := none,
        providerCalls := 0, backoffs := [] }
  | some tokens0 =>
      if needsRefresh now tokens0.expiry_date then
        if ¬ truthyS tokens0.refresh_token then
          { result := ClientResult.fatal noRefreshTokenMsg, persisted := none,
            providerCalls := 0, backoffs := [] }
        else
          match (runRefresh tokens0 env).result with
          | Except.error m =>
              { result := ClientResult.fatal m,
                persisted := (runRefresh tokens0 env).persisted,
                providerCalls := (runRefresh tokens0 env).providerCalls,
                backoffs := (runRefresh tokens0 env).backoffs }
          | Except.ok t =>
              finalizeClient t (runRefresh tokens0 env).persisted
                (runRefresh tokens0 env).providerCalls (runRefresh tokens0 env).backoffs
      else
        finalizeClient tokens0 none 0 []

/-- The expiry computation exactly as the claim words it: the returned
absolute expiry if present, otherwise now plus the returned
seconds-until-expiry times 1000, otherwise now plus one hour.  Presence
is taken literally (the field is there). -/
def claimNewExpiry (c : RefreshCreds) (nowAt : Nat) : Nat :=
  match c.expiry_date with
  | some v => v
  | none =>
      match c.expires_in with
      | some s => nowAt + s * 1000
      | none => nowAt + 3600 * 1000

/-- Seconds-until-expiry leg of the amended expiry computation: a
present but zero `expires_in` is skipped in favour of the 1 hour
default. -/
def amendedNewExpirySeconds (c : RefreshCreds) (nowAt : Nat) : Nat :=
  match c.expires_in with
  | some s => if s ≠ 0 then nowAt + s * 1000 else nowAt + 3600 * 1000
  | none => nowAt + 3600 * 1000

/-- The expiry computation as amended: a present but zero field is
skipped, because the source tests both fields with JS truthiness. -/
def amendedNewExpiry (c : RefreshCreds) (nowAt : Nat) : Nat :=
  match c.expiry_date with
  | some v => if v ≠ 0 then v else amendedNewExpirySeconds c nowAt
  | none => amendedNewExpirySeconds c nowAt

/-! ## Concurrency: two overlapping `getOAuth2ClientForUser` calls

`getOAuth2ClientForUser` keeps no module-level in-flight refresh state:
each invocation reads the user record, decides from that read whether to
refresh, performs the refresh on a private temporary client, and writes
the record back.  Two concurrent invocations for the same user are
therefore modelled as two independent read / refresh / write sequences
interleaved by a scheduler over the shared store. -/

/-- Program counter of one logical `getOAuth2ClientForUser` call,
abstracted to its interactions with the shared credential record. -/
inductive RefreshPhase where
  | start
  | readDone (sawNeedsRefresh : Bool)
  | refreshDone (didRefresh : Bool)
  | finished
  deriving Repr, DecidableEq

/-- Shared state of two interleaved calls: whether the stored record
currently needs a refresh, both program counters, and the number of
provider refresh calls issued so far. -/
structure TwoCallState where
  storeNeedsRefresh : Bool
  pc1 : RefreshPhase
  pc2 : RefreshPhase
  providerRefreshCalls : Nat
  deriving Repr, DecidableEq

/-- Advance one call by one atomic step: its read decides from the store
as it is at that moment; its refresh calls the provider exactly when its
own read saw a stale record; its write freshens the store. -/
def stepPhase (store : Bool) (pc : RefreshPhase) (calls : Nat) :
    RefreshPhase × Bool × Nat :=
  match pc with
  | RefreshPhase.start => (RefreshPhase.readDone store, store, calls)
  | RefreshPhase.readDone saw =>
      (RefreshPhase.refreshDone saw, store, if saw then calls + 1 else calls)
  | RefreshPhase.refreshDone did =>
      (RefreshPhase.finished, if did then false else store, calls)
  | RefreshPhase.finished => (RefreshPhase.finished, store, calls)

/-- Scheduler step: `false` advances call 1, `true` advances call 2. -/
def stepCall (st : TwoCallState) (who : Bool) : TwoCallState :=
  if who then
    match stepPhase st.storeNeedsRefresh st.pc2 st.providerRefreshCalls with
    | (pc, store, calls) =>
        { st with pc2 := pc, storeNeedsRefresh := store, providerRefreshCalls := calls }
  else
    match stepPhase st.storeNeedsRefresh st.pc1 st.providerRefreshCalls with
    | (pc, store, calls) =>
        { st with pc1 := pc, storeNeedsRefresh := store, providerRefreshCalls := calls }

/-- Run a schedule (a list of scheduler choices) from a state. -/
def runSchedule (st : TwoCallState) : List Bool → TwoCallState
  | [] => st
  | who :: rest => runSchedule (stepCall st who) rest

/-- Initial state: the stored credential needs a refresh and both calls
are about to start. -/
def twoCallInit : TwoCallState :=
  { storeNeedsRefresh := true, pc1 := RefreshPhase.start,
    pc2 := RefreshPhase.start, providerRefreshCalls := 0 }

/-- Internal state of the `DatabaseConnection` singleton
(`src/db/connection.ts`): the MongoDB db handle, the `isConnecting`
flag, and the stored in-flight `connectionPromise` (handles and promises
are abstracted to numeric identities). -/
structure DbBootState where
  db : Option Nat
  isConnecting : Bool
  connectionPromise : Option Nat
  deriving Repr, DecidableEq

/-- `DatabaseConnection.connect`: return the existing `db` if present;
else, if a connection is in flight, await that same stored promise; else
start a new `establishConnection` (the `fresh` identity), recording it
as the in-flight promise.  The third component counts how many new
establishment attempts this call started. -/
def dbConnect (st : DbBootState) (fresh : Nat) : Nat × DbBootState × Nat :=
  match st.db with
  | some d => (d, st, 0)
  | none =>
      if st.isConnecting ∧ st.connectionPromise.isSome then
        (st.connectionPromise.getD 0, st, 0)
      else
        (fresh,
          { db := none, isConnecting := true, connectionPromise := some fresh }, 1)

/-! ## OAuth handshake: state validation at `GET /callback`
(`src/src/auth/authRouter.ts`) -/

/-- Outcome of the request validation prefix of the `/callback`
handler. -/
inductive CallbackCheck where
  | invalidState
  | expiredState
  | missingCode
  | proceed
  deriving Repr, DecidableEq

/-- `10 * 60 * 1000`: the state expiry window in milliseconds. -/
def tenMinutesMs : Nat := 10 * 60 * 1000

/-- The `/callback` validation, in source order: reject with `Invalid
state parameter` when the query state or the session-stored state is
falsy or they differ; then reject with `State parameter expired` when
the session-stored timestamp is falsy or older than ten minutes; then
reject a falsy `code`; otherwise proceed to the code exchange. -/
def callbackStateCheck (state sessionState : Option String)
    (stateTimestamp : Option Nat) (now : Nat) (code : Option String) :
    CallbackCheck :=
  if ¬ truthyOS state ∨ ¬ truthyOS sessionState ∨ state ≠ sessionState then
    CallbackCheck.invalidState
  else if ¬ truthyON stateTimestamp ∨
      ((stateTimestamp.getD 0 : Int) < (now : Int) - (tenMinutesMs : Int)) then
    CallbackCheck.expiredState
  else if ¬ truthyOS code then
    CallbackCheck.missingCode
  else
    CallbackCheck.proceed

/-- The `/signin` handler issues a fresh random nonce as the state and
stores the nonce and the issue instant in the session: the returned
triple is (outbound state parameter, session oauthState, session
oauthStateTimestamp).  No signature of any kind is attached. -/
def signinIssueState (nonce : String) (now : Nat) :
    String × Option String × Option Nat :=
  (nonce, some nonce, some now)

/-- The claim reads the state parameter as a self-authenticating signed
token, so the callback verdict would be a function of the token and the
clock alone; the session would contribute nothing.  This is that
consequence, stated of the embedded check. -/
def claimStateVerificationSessionFree : Prop :=
  ∀ (state : Option String) (sess sess2 : Option String)
    (ts ts2 : Option Nat) (now : Nat) (code : Option String),
    callbackStateCheck state sess ts now code =
      callbackStateCheck state sess2 ts2 now code

/-! ## Resilient mail wrapper (`src/src/google/gmail.ts`) -/

/-- Outcome of one `gmail.users.messages.list` call: a message id list,
or a rejection carrying an optional numeric status code (messages are
abstracted to numeric ids). -/
inductive GmailAttempt where
  | ok (msgs : List Nat)
  | err (code : Option Nat)
  deriving Repr, DecidableEq

/-- `const RETRYABLE_ERROR_CODES = [429, 500, 503, 504]`. -/
def RETRYABLE_ERROR_CODES : List Nat := [429, 500, 503, 504]

/-- `const MAX_RETRIES = 3`. -/
def MAX_RETRIES : Nat := 3

/-- Trace of the in-function retry loop of `listMessages`: the loop
outcome (message list, or the final `lastError` code), the index of the
next unconsumed provider call, and the backoff delays slept. -/
structure GmailLoopOut where
  outcome : Except (Option Nat) (List Nat)
  nextIdx : Nat
  backoffs : List Nat
  deriving Repr

/-- The retry loop `for (let attempt = 0; attempt <= retryCount;
attempt++)` of `listMessages`: fuel is the number of attempts still
allowed (`retryCount - attempt + 1`); a retry sleeps
`Math.pow(2, attempt) * 1000` before the next iteration; 400, 401 and
403 break out at once; only codes in `RETRYABLE_ERROR_CODES` continue,
and only while attempts remain. -/
def gmailLoop (env : Nat → GmailAttempt) :
    Nat → Nat → Nat → List Nat → GmailLoopOut
  | 0, _, k, backs => { outcome := Except.error none, nextIdx := k, backoffs := backs }
  | fuel + 1, attempt, k, backs =>
      match env k with
      | GmailAttempt.ok msgs =>
          { outcome := Except.ok msgs, nextIdx := k + 1, backoffs := backs }
      | GmailAttempt.err code =>
          if code = some 400 ∨ code = some 401 ∨ code = some 403 then
            { outcome := Except.error code, nextIdx := k + 1, backoffs := backs }
          else
            match code with
            | some c =>
                if RETRYABLE_ERROR_CODES.contains c then
                  (if fuel = 0 then
                    { outcome := Except.error (some c), nextIdx := k + 1,
                      backoffs := backs }
                  else
                    gmailLoop env fuel (attempt + 1) (k + 1)
                      (backs ++ [2 ^ (attempt + 1) * 1000]))
                else
                  { outcome := Except.error (some c), nextIdx := k + 1,
                    backoffs := backs }
            | none =>
                { outcome := Except.error none, nextIdx := k + 1, backoffs := backs }

def rateLimitedMsg : String :=
  "Rate limit exceeded for Gmail API. Please try again later."

def tempUnavailableMsg : String :=
  "Gmail API is temporarily unavailable. Please try again later."

def accessDeniedMsg : String :=
  "Access denied to Gmail API (403)."

def gmailGenericMsg : String :=
  "Failed to fetch messages from Gmail"

def reauthMsg : String :=
  "Authentication failed. Please re-authenticate to access Gmail."

/-- The error classification after the loop, for every code the 401
recursion does not intercept.  (The three 403 sub-messages are collapsed
into one marker string: the claims under verification do not distinguish
them.) -/
def classifyGmailError (code : Option Nat) : String :=
  if code = some 403 then accessDeniedMsg
  else if code = some 429 then rateLimitedMsg
  else if code = some 500 ∨ code = some 503 ∨ code = some 504 then tempUnavailableMsg
  else gmailGenericMsg

/-- Trace of a whole `listMessages` call: the result, the number of
OAuth client acquisitions through the credential manager (one per
function entry, so one plus the number of 401-triggered recursions), the
number of provider list calls consumed from the environment, and the
backoff delays slept. -/
structure GmailCallOut where
  result : Except String (List Nat)
  acquisitions : Nat
  nextIdx : Nat
  backoffs : List Nat
  deriving Repr

/-- `listMessages(userId, retryCount)` after a successful client
acquisition: run the retry loop; on a final 401, recurse with
`retryCount + 1` while `retryCount < MAX_RETRIES` (each recursion
re-acquires a client through `getOAuth2ClientForUser`), else surface the
re-authenticate error; any other final code is classified.  The fuel
bounds the recursion depth and is always sufficient at the wrapper. -/
def listMessagesGo (env : Nat → GmailAttempt) :
    Nat → Nat → Nat → Nat → List Nat → GmailCallOut
  | 0, _, k, acqs, backs =>
      { result := Except.error reauthMsg, acquisitions := acqs, nextIdx := k,
        backoffs := backs }
  | fuel + 1, rc, k, acqs, backs =>
      match gmailLoop env (rc + 1) 0 k backs with
      | lo =>
          match lo.outcome with
          | Except.ok msgs =>
              { result := Except.ok msgs, acquisitions := acqs + 1,
                nextIdx := lo.nextIdx, backoffs := lo.backoffs }
          | Except.error code =>
              if code = some 401 then
                (if rc < MAX_RETRIES then
                  listMessagesGo env fuel (rc + 1) lo.nextIdx (acqs + 1) lo.backoffs
                else
                  { result := Except.error reauthMsg, acquisitions := acqs + 1,
                    nextIdx := lo.nextIdx, backoffs := lo.backoffs })
              else
                { result := Except.error (classifyGmailError code),
                  acquisitions := acqs + 1, nextIdx := lo.nextIdx,
                  backoffs := lo.backoffs }

/-- `listMessages` entered with a given `retryCount` (0 at every
external call site). -/
def listMessagesModel (env : Nat → GmailAttempt) (rc : Nat) : GmailCallOut :=
  listMessagesGo env (MAX_RETRIES + 1) rc 0 0 []

/-! ## Messages route with mock fallback (`GET /api/messages`) -/

/-- The 21 fixed demo messages of `src/src/google/mockEmails.ts`,
identified by their ids. -/
def mockEmailIds : List String :=
  ["mock_001", "mock_002", "mock_003", "mock_004", "mock_005", "mock_006",
   "mock_007", "mock_008", "mock_009", "mock_010", "mock_011", "mock_012",
   "mock_013", "mock_014", "mock_015", "mock_016", "mock_017", "mock_018",
   "mock_019", "mock_020", "mock_021"]

/-- `getMockEmails()` returns the fixed demo array. -/
def getMockEmails : List String := mockEmailIds

/-- JSON body produced by the `GET /api/messages` handler: the message
list, its count, the `mock` flag (absent in the JSON of a real response,
modelled as `false`), and the optional `reason` field. -/
structure MessagesResponse where
  messages : List String
  count : Nat
  mock : Bool
  reason : Option String
  deriving Repr, DecidableEq

/-- The `GET /api/messages` handler under `optionalAuth`, in source
order: no authenticated user returns the mock set flagged
`not_authenticated`; an explicit `mock=true` query returns it unflagged;
a disconnected database returns it flagged `database_unavailable`; a
`listMessages` rejection returns it flagged `gmail_api_error`; a
resolution returns the real messages. -/
def messagesHandler (userId : Option String) (useMock : Bool)
    (dbConnectedNow : Bool) (gmail : Except String (List String)) :
    MessagesResponse :=
  if ¬ truthyOS userId then
    { messages := getMockEmails, count := getMockEmails.length, mock := true,
      reason := some "not_authenticated" }
  else if useMock then
    { messages := getMockEmails, count := getMockEmails.length, mock := true,
      reason := none }
  else if ¬ dbConnectedNow then
    { messages := getMockEmails, count := getMockEmails.length, mock := true,
      reason := some "database_unavailable" }
  else
    match gmail with
    | Except.ok msgs =>
        { messages := msgs, count := msgs.length, mock := false, reason := none }
    | Except.error _ =>
        { messages := getMockEmails, count := getMockEmails.length, mock := true,
          reason := some "gmail_api_error" }

/-! ## Connection singleton health check (`src/db/connection.ts`) -/

/-- Internal handle state of `DatabaseConnection`: the `client` and `db`
fields (abstracted to numeric identities). -/
structure DbConnState where
  client : Option Nat
  db : Option Nat
  deriving Repr, DecidableEq

/-- `isConnected(): this.db !== null && this.client !== null`. -/
def isConnected (st : DbConnState) : Bool :=
  st.db.isSome && st.client.isSome

/-- `healthCheck()`: false when `db` is null; otherwise ping, returning
false when the ping throws.  The state is returned unchanged on every
path: nothing is demoted. -/
def healthCheck (st : DbConnState) (pingOk : Bool) : Bool × DbConnState :=
  match st.db with
  | none => (false, st)
  | some _ => (pingOk, st)

/-- The acquire path (`connect` / `getDbAsync`) as seen from a state
with a handle: `if (this.db) return this.db` short-circuits, so the
second component records whether a new establishment would run. -/
def connectAcquire (st : DbConnState) : Option Nat × Bool :=
  match st.db with
  | some d => (some d, false)
  | none => (none, true)

/-- The `close` client event listener: the one place that clears
`this.db`. -/
def onCloseEvent (st : DbConnState) : DbConnState :=
  { st with db := none }

/-- A live connection state used by concrete runs. -/
def liveConn : DbConnState := { client := some 1, db := some 1 }

/-! ## Shared module-level OAuth client (`getTokens`) -/

/-- The module-level `oauth2Client` of the Google client module,
reduced to its mutable credentials. -/
structure SharedOAuthClient where
  credentials : Option GoogleTokens
  deriving Repr, DecidableEq

/-- The shared client as created at module load: no credentials. -/
def initialOauth2Client : SharedOAuthClient := { credentials := none }

/-- `getTokens(code)`: exchange the code, then
`oauth2Client.setCredentials(tokens)` on the shared module-level
instance, and return the tokens.  `exchanged` is the token set the
provider answers for this code. -/
def getTokens (client : SharedOAuthClient) (exchanged : GoogleTokens) :
    GoogleTokens × SharedOAuthClient :=
  (exchanged, { credentials := some exchanged })

/-- A concrete token record for concrete runs. -/
def sampleTokens : GoogleTokens :=
  { access_token := "at1", refresh_token := "rt1", scope := "mail",
    token_type := "Bearer", expiry_date := 7200000 }

/-! ## Concrete instances used by the theorems below -/

/-- A provider refresh error that is neither a 400, a 401 nor an
invalid_grant message: a retryable failure. -/
def transientRefreshErr (a : RefreshAttempt) : Prop :=
  match a with
  | RefreshAttempt.provErr code msg =>
      code ≠ some 400 ∧ code ≠ some 401 ∧ includesInvalidGrant msg = false
  | RefreshAttempt.provOk _ _ _ => False

/-- A stored record whose access token has already expired. -/
def expiredTok : GoogleTokens :=
  { access_token := "oldat", refresh_token := "oldrt", scope := "mail",
    token_type := "Bearer", expiry_date := 500 }

/-- A refresh response carrying a zero absolute expiry together with a
seconds-until-expiry field. -/
def zeroExpiryCreds : RefreshCreds :=
  { access_token := some "newat", refresh_token := none, scope := none,
    token_type := none, expiry_date := some 0, expires_in := some 7 }

/-- Environment answering every refresh attempt with `zeroExpiryCreds`,
persisting fine, at `Date.now() = 1000`. -/
def zeroExpiryEnv : Nat → RefreshAttempt :=
  fun _ => RefreshAttempt.provOk zeroExpiryCreds true 1000

/-- A normal refresh response. -/
def happyCreds : RefreshCreds :=
  { access_token := some "newat", refresh_token := some "newrt",
    scope := some "mail", token_type := some "Bearer",
    expiry_date := none, expires_in := some 3500 }

/-- Environment answering every refresh attempt with `happyCreds`,
persisting fine. -/
def happyEnv : Nat → RefreshAttempt :=
  fun _ => RefreshAttempt.provOk happyCreds true 1000

/-- Environment whose store write fails on every refresh attempt. -/
def persistFailEnv : Nat → RefreshAttempt :=
  fun _ => RefreshAttempt.provOk happyCreds false 1000

/-- Environment answering every refresh attempt with a transient 503. -/
def transient503Env : Nat → RefreshAttempt :=
  fun _ => RefreshAttempt.provErr (some 503) "Service Unavailable"

/-- Environment whose first refresh attempt reports invalid_grant. -/
def invalidGrantEnv : Nat → RefreshAttempt :=
  fun _ => RefreshAttempt.provErr (some 400) "invalid_grant: bad token"

/-- A gmail environment answering every list call with HTTP 429. -/
def all429Env : Nat → GmailAttempt := fun _ => GmailAttempt.err (some 429)

/-- A gmail environment answering every list call with HTTP 503. -/
def all503Env : Nat → GmailAttempt := fun _ => GmailAttempt.err (some 503)

/-- A gmail environment answering every list call with HTTP 401. -/
def all401Env : Nat → GmailAttempt := fun _ => GmailAttempt.err (some 401)

/-- A retryable gmail attempt: a rejection with a status in
`RETRYABLE_ERROR_CODES`. -/
def transientGmailErr (a : GmailAttempt) : Prop :=
  match a with
  | GmailAttempt.err (some c) => RETRYABLE_ERROR_CODES.contains c = true
  | _ => False

/-! # Theorems -/

/-! ## Helper lemmas -/

/-- The refresh loop performs at most `fuel` further provider calls. -/
theorem refreshGo_calls_le (old : GoogleTokens) (env : Nat → RefreshAttempt) :
    ∀ (fuel attempt : Nat) (le : Option String) (p : Option GoogleTokens)
      (calls : Nat) (backs : List Nat),
    (refreshGo old env fuel attempt le p calls backs).providerCalls ≤ calls + fuel := by
  intro fuel
  induction fuel with
  | zero => intro attempt le p calls backs; simp [refreshGo]
  | succ n ih =>
    intro attempt le p calls backs
    simp only [refreshGo]
    cases h : env attempt with
    | provErr code msg =>
      simp only [h]
      repeat' split
      all_goals first
        | exact Nat.le_trans (ih _ _ _ _ _) (by omega)
        | (simp; try omega)
    | provOk creds persistOk nowAt =>
      simp only [h]
      repeat' split
      all_goals first
        | exact Nat.le_trans (ih _ _ _ _ _) (by omega)
        | (simp; try omega)

/-- Whenever the refresh loop ends with tokens (no throw), those tokens
were written to the credential store, except on the degenerate
fuel-exhausted path that cannot arise from the real entry point. -/
theorem refreshGo_ok_persisted (old : GoogleTokens) (env : Nat → RefreshAttempt) :
    ∀ (fuel attempt : Nat) (le : Option String) (p : Option GoogleTokens)
      (calls : Nat) (backs : List Nat) (t : GoogleTokens),
    (refreshGo old env fuel attempt le p calls backs).result = Except.ok t →
    (refreshGo old env fuel attempt le p calls backs).persisted = some t ∨
      (le = none ∧ fuel = 0) := by
  intro fuel
  induction fuel with
  | zero =>
    intro attempt le p calls backs t hr
    cases le with
    | none => exact Or.inr ⟨rfl, rfl⟩
    | some m => simp [refreshGo, exhaustedResult] at hr
  | succ n ih =>
    intro attempt le p calls backs t
    simp only [refreshGo]
    repeat' split
    all_goals intro hr
    all_goals first
      | exact Or.inl ((ih _ _ _ _ _ _ hr).resolve_right (by simp))
      | (simp at hr; subst hr; simp)
      | (simp [exhaustedResult] at hr)

/-- When every store write in the environment fails, the refresh loop
can only end with tokens through the degenerate fuel-exhausted path. -/
theorem refreshGo_persistFail_no_ok (old : GoogleTokens) (env : Nat → RefreshAttempt)
    (hp : ∀ (n : Nat) (creds : RefreshCreds) (w : Nat),
      env n ≠ RefreshAttempt.provOk creds true w) :
    ∀ (fuel attempt : Nat) (le : Option String) (p : Option GoogleTokens)
      (calls : Nat) (backs : List Nat) (t : GoogleTokens),
    (refreshGo old env fuel attempt le p calls backs).result = Except.ok t →
    le = none ∧ fuel = 0 := by
  intro fuel
  induction fuel with
  | zero =>
    intro attempt le p calls backs t hr
    cases le with
    | none => exact ⟨rfl, rfl⟩
    | some m => simp [refreshGo, exhaustedResult] at hr
  | succ n ih =>
    intro attempt le p calls backs t
    simp only [refreshGo]
    repeat' split
    all_goals intro hr
    all_goals first
      | exact absurd (ih _ _ _ _ _ _ hr).1 (by simp)
      | ((simp [exhaustedResult] at hr); done)
      | simp_all

/-- `runRefresh` corollary of `refreshGo_ok_persisted`: the entry point
has nonzero fuel, so tokens coming out of the loop were persisted. -/
theorem runRefresh_ok_persisted (old : GoogleTokens) (env : Nat → RefreshAttempt)
    (t : GoogleTokens) (h : (runRefresh old env).result = Except.ok t) :
    (runRefresh old env).persisted = some t := by
  rcases refreshGo_ok_persisted old env maxRetries 1 none none 0 [] t h with h1 | ⟨_, h2⟩
  · exact h1
  · exact absurd h2 (by simp [maxRetries])

/-- `runRefresh` corollary of `refreshGo_persistFail_no_ok`. -/
theorem runRefresh_persistFail_error (old : GoogleTokens) (env : Nat → RefreshAttempt)
    (hp : ∀ (n : Nat) (creds : RefreshCreds) (w : Nat),
      env n ≠ RefreshAttempt.provOk creds true w) (t : GoogleTokens) :
    (runRefresh old env).result ≠ Except.ok t := by
  intro h
  have := refreshGo_persistFail_no_ok old env hp maxRetries 1 none none 0 [] t h
  simp [maxRetries] at this

/-- A truthy optional string stays truthy after `getD`. -/
theorem truthyS_getD (o : Option String) (h : truthyOS o = true) :
    truthyS (o.getD "") = true := by
  cases o <;> simp_all [truthyOS, truthyS]

/-- Both branches of the final validation leave the persisted record
untouched. -/
theorem finalizeClient_persisted (t : GoogleTokens) (p : Option GoogleTokens)
    (c : Nat) (b : List Nat) : (finalizeClient t p c b).persisted = p := by
  unfold finalizeClient; split <;> rfl

/-- The final validation only ever hands out the tokens it was given. -/
theorem finalizeClient_client (t : GoogleTokens) (p : Option GoogleTokens)
    (c : Nat) (b : List Nat) (x : GoogleTokens)
    (h : (finalizeClient t p c b).result = ClientResult.client x) : x = t := by
  unfold finalizeClient at h; split at h <;> simp_all

/-! ## Claim C1 -/

/-- Claim C1, counterexample: a stored record with `expiry_date = 0` at
`now = 1` satisfies the claimed trigger (`now >= expiresAt`), yet the
source never refreshes it, because `tokens.expiry_date &&` makes a zero
expiry falsy. -/
theorem c1_refresh_decision_counterexample :
    ¬ (needsRefresh 1 0 = true ↔
        ((1 : Nat) ≥ 0 ∨ (0 : Int) - (1 : Int) < (REFRESH_BUFFER : Int))) := by
  decide

/-- Claim C1 (amended): `getOAuth2ClientForUser` treats the stored token
as needing refresh if and only if its `expiry_date` is nonzero and
`expiresAt - now < REFRESH_BUFFER` (five minutes); this single
inequality subsumes the expired case `now >= expiresAt`, and a record
with a zero (or absent) `expiry_date` never triggers a refresh. -/
theorem c1_refresh_decision_amended (now e : Nat) :
    needsRefresh now e = true ↔
      (e ≠ 0 ∧ (e : Int) - (now : Int) < (REFRESH_BUFFER : Int)) := by
  simp only [needsRefresh, isExpired, isExpiringSoon, Bool.or_eq_true,
    Bool.and_eq_true, decide_eq_true_eq, bne_iff_ne, ne_eq]
  constructor
  · rintro (⟨h0, h1⟩ | ⟨h0, h1⟩) <;> refine ⟨h0, ?_⟩ <;>
      simp [REFRESH_BUFFER] at * <;> omega
  · rintro ⟨h0, h1⟩
    exact Or.inr ⟨h0, h1⟩

/-! ## Claim C2 -/

/-- Claim C2, counterexample: a provider response carrying the absolute
expiry 0 (with `expires_in = 7`, at `Date.now() = 1000`) is persisted
and returned with `expiry_date = 8000`, not with the returned absolute
expiry 0 as the claim states: `credentialsWithExpiry.expiry_date` is a
truthiness test, so a present zero falls through to `expires_in`. -/
theorem c2_refresh_success_counterexample :
    (getOAuth2ClientForUser (some expiredTok) 2000 zeroExpiryEnv).result =
      ClientResult.client (mkNewTokens expiredTok zeroExpiryCreds 1000) ∧
    (mkNewTokens expiredTok zeroExpiryCreds 1000).expiry_date = 8000 ∧
    claimNewExpiry zeroExpiryCreds 1000 = 0 ∧ (8000 : Nat) ≠ 0 := by
  refine ⟨by decide, by decide, by decide, by decide⟩

/-- Claim C2 (amended): on a refresh the provider answers successfully,
`getOAuth2ClientForUser` computes the new `expiresAt` from the returned
absolute expiry when that field is present and nonzero, otherwise from
now plus the returned seconds-until-expiry times 1000 when that field is
present and nonzero, otherwise defaults to now plus 1 hour (JS
truthiness skips zero values); it keeps the previously stored
`refreshToken` whenever the provider response carries none; every client
it returns after a needed refresh carries exactly the token record that
was persisted to the credential store; and when persisting fails the
call errors and no client is returned. -/
theorem c2_refresh_success_amended :
    (∀ (c : RefreshCreds) (n : Nat), computeNewExpiry c n = amendedNewExpiry c n) ∧
    (∀ (old : GoogleTokens) (c : RefreshCreds) (n : Nat), c.refresh_token = none →
      (mkNewTokens old c n).refresh_token = old.refresh_token) ∧
    (∀ (tok : GoogleTokens) (now : Nat) (env : Nat → RefreshAttempt) (t : GoogleTokens),
      needsRefresh now tok.expiry_date = true →
      (getOAuth2ClientForUser (some tok) now env).result = ClientResult.client t →
      (getOAuth2ClientForUser (some tok) now env).persisted = some t) ∧
    (∀ (tok : GoogleTokens) (now : Nat) (env : Nat → RefreshAttempt),
      needsRefresh now tok.expiry_date = true →
      (∀ (n : Nat) (creds : RefreshCreds) (b : Bool) (w : Nat),
        env n = RefreshAttempt.provOk creds b w → b = false) →
      ∀ t, (getOAuth2ClientForUser (some tok) now env).result ≠ ClientResult.client t) ∧
    (∀ (tok : GoogleTokens) (now : Nat) (env : Nat → RefreshAttempt)
       (creds : RefreshCreds) (nowAt : Nat),
      needsRefresh now tok.expiry_date = true →
      truthyS tok.refresh_token = true →
      env 1 = RefreshAttempt.provOk creds true nowAt →
      truthyOS creds.access_token = true →
      getOAuth2ClientForUser (some tok) now env =
        { result := ClientResult.client (mkNewTokens tok creds nowAt),
          persisted := some (mkNewTokens tok creds nowAt),
          providerCalls := 1, backoffs := [] }) := by
  refine ⟨?_, ?_, ?_, ?_, ?_⟩
  · intro c n
    cases h1 : c.expiry_date <;> cases h2 : c.expires_in <;>
      simp [computeNewExpiry, amendedNewExpiry, amendedNewExpirySeconds,
        truthyON, h1, h2]
  · intro old c n h
    simp [mkNewTokens, orElseStr, h, truthyOS]
  · intro tok now env t h1
    simp only [getOAuth2ClientForUser, h1, if_true]
    by_cases h2 : truthyS tok.refresh_token = true
    · simp only [h2, not_true, if_false, ite_false, ite_true]
      cases hrr : (runRefresh tok env).result with
      | error m => intro hres; exact absurd hres (by simp)
      | ok t2 =>
        intro hres
        have he : t = t2 := finalizeClient_client _ _ _ _ _ hres
        rw [finalizeClient_persisted, he]
        exact runRefresh_ok_persisted tok env t2 hrr
    · simp [h2]
  · intro tok now env h1 hb t hres
    have hp : ∀ (n : Nat) (creds : RefreshCreds) (w : Nat),
        env n ≠ RefreshAttempt.provOk creds true w := by
      intro n creds w hEq
      simpa using hb n creds true w hEq
    revert hres
    simp only [getOAuth2ClientForUser, h1, if_true]
    by_cases h2 : truthyS tok.refresh_token = true
    · simp only [h2, not_true, if_false, ite_false, ite_true]
      cases hrr : (runRefresh tok env).result with
      | error m => intro hres; exact absurd hres (by simp)
      | ok t2 => exact absurd hrr (runRefresh_persistFail_error tok env hp t2)
    · simp [h2]
  · intro tok now env creds nowAt h1 h2 h3 h4
    have hrun : runRefresh tok env =
        { result := Except.ok (mkNewTokens tok creds nowAt),
          persisted := some (mkNewTokens tok creds nowAt),
          providerCalls := 1, backoffs := [] } := by
      simp [runRefresh, maxRetries, refreshGo, h3, h4, h2]
    simp [getOAuth2ClientForUser, h1, h2, hrun, finalizeClient, mkNewTokens,
      truthyS_getD creds.access_token h4]

/-- Claim C2, witness: the amended theorem evaluated on concrete runs -
a happy refresh at an expired record, and the same record against an
environment whose store writes always fail. -/
theorem c2_refresh_success_witness :
    (getOAuth2ClientForUser (some expiredTok) 2000000 happyEnv =
      { result := ClientResult.client (mkNewTokens expiredTok happyCreds 1000),
        persisted := some (mkNewTokens expiredTok happyCreds 1000),
        providerCalls := 1, backoffs := [] }) ∧
    (∀ t, (getOAuth2ClientForUser (some expiredTok) 2000000 persistFailEnv).result ≠
      ClientResult.client t) := by
  constructor
  · exact c2_refresh_success_amended.2.2.2.2 expiredTok 2000000 happyEnv happyCreds 1000
      (by decide) (by decide) rfl (by decide)
  · exact c2_refresh_success_amended.2.2.2.1 expiredTok 2000000 persistFailEnv
      (by decide)
      (fun n creds b w h => by
        injection h with h1 h2 h3
        exact h2.symm)

/-! ## Claim C3 -/

/-- Claim C3 (confirmed): a needed refresh with a stored refresh token
calls the provider token-refresh endpoint at most 3 times, with
exponential backoff slept between consecutive attempts (2s then 4s); a
response with HTTP code 400 or an invalid_grant message aborts
immediately with the fatal re-authenticate error and consumes no further
attempt, whether it arrives on the first try or after transient
failures. -/
theorem c3_refresh_retry_bound :
    (∀ (old : GoogleTokens) (env : Nat → RefreshAttempt),
      (runRefresh old env).providerCalls ≤ 3) ∧
    (∀ (old : GoogleTokens) (env : Nat → RefreshAttempt) (code : Option Nat) (msg : String),
      env 1 = RefreshAttempt.provErr code msg →
      (code = some 400 ∨ includesInvalidGrant msg = true) →
      runRefresh old env =
        { result := Except.error invalidGrantMsg, persisted := none,
          providerCalls := 1, backoffs := [] }) ∧
    (∀ (old : GoogleTokens) (env : Nat → RefreshAttempt) (c1 : Option Nat)
       (m1 : String) (code : Option Nat) (msg : String),
      env 1 = RefreshAttempt.provErr c1 m1 → transientRefreshErr (env 1) →
      env 2 = RefreshAttempt.provErr code msg →
      (code = some 400 ∨ includesInvalidGrant msg = true) →
      runRefresh old env =
        { result := Except.error invalidGrantMsg, persisted := none,
          providerCalls := 2, backoffs := [2000] }) ∧
    (∀ (old : GoogleTokens) (env : Nat → RefreshAttempt),
      (∀ n, 1 ≤ n → n ≤ 3 → transientRefreshErr (env n)) →
      (runRefresh old env).providerCalls = 3 ∧
      (runRefresh old env).backoffs = [2000, 4000] ∧
      ∃ m, (runRefresh old env).result = Except.error m) := by
  refine ⟨?_, ?_, ?_, ?_⟩
  · intro old env
    simpa [maxRetries] using refreshGo_calls_le old env maxRetries 1 none none 0 []
  · intro old env code msg henv hfatal
    simp [runRefresh, maxRetries, refreshGo, henv, hfatal]
  · intro old env c1 m1 code msg henv1 htr henv2 hfatal
    rw [henv1] at htr
    obtain ⟨ha, hb, hc⟩ := htr
    simp [runRefresh, maxRetries, refreshGo, henv1, henv2, ha, hb, hc, hfatal]
  · intro old env h
    have h1 := h 1 (by omega) (by omega)
    have h2 := h 2 (by omega) (by omega)
    have h3 := h 3 (by omega) (by omega)
    cases he1 : env 1 with
    | provOk creds persistOk nowAt => rw [he1] at h1; exact h1.elim
    | provErr c1 m1 =>
      cases he2 : env 2 with
      | provOk creds persistOk nowAt => rw [he2] at h2; exact h2.elim
      | provErr c2 m2 =>
        cases he3 : env 3 with
        | provOk creds persistOk nowAt => rw [he3] at h3; exact h3.elim
        | provErr c3 m3 =>
          rw [he1] at h1; rw [he2] at h2; rw [he3] at h3
          obtain ⟨h1a, h1b, h1c⟩ := h1
          obtain ⟨h2a, h2b, h2c⟩ := h2
          obtain ⟨h3a, h3b, h3c⟩ := h3
          refine ⟨?_, ?_, exhaustedMsg m3, ?_⟩ <;>
            simp [runRefresh, maxRetries, refreshGo, he1, he2, he3, h1a, h1b,
              h1c, h2a, h2b, h2c, h3a, h3b, h3c, exhaustedResult]

/-- Claim C3, witness: the bound, the immediate invalid_grant abort and
the transient exhaustion evaluated on concrete environments. -/
theorem c3_refresh_retry_bound_witness :
    (runRefresh expiredTok invalidGrantEnv =
      { result := Except.error invalidGrantMsg, persisted := none,
        providerCalls := 1, backoffs := [] }) ∧
    (runRefresh expiredTok transient503Env).providerCalls = 3 ∧
    (runRefresh expiredTok transient503Env).backoffs = [2000, 4000] := by
  refine ⟨?_, ?_, ?_⟩
  · exact c3_refresh_retry_bound.2.1 expiredTok invalidGrantEnv (some 400)
      "invalid_grant: bad token" rfl (by decide)
  · exact (c3_refresh_retry_bound.2.2.2 expiredTok transient503Env
      (fun n h1 h2 => ⟨by decide, by decide, by decide⟩)).1
  · exact (c3_refresh_retry_bound.2.2.2 expiredTok transient503Env
      (fun n h1 h2 => ⟨by decide, by decide, by decide⟩)).2.1

/-! ## Claim C4 -/

/-- Claim C4, counterexample: with the stored record needing a refresh,
the interleaving read1, read2, refresh1, write1, refresh2, write2 of two
concurrent `getOAuth2ClientForUser` calls issues two provider refresh
calls, not exactly one: the function keeps no shared in-flight refresh
operation, so each call refreshes on the basis of its own read. -/
theorem c4_concurrent_refresh_counterexample :
    (runSchedule twoCallInit [false, true, false, false, true, true]).providerRefreshCalls = 2 ∧
    (2 : Nat) ≠ 1 := by
  decide

/-- Claim C4 (amended): the database connection bootstrap does collapse
concurrent callers into the single stored in-flight attempt, and a
purely sequential interleaving of two credential-manager calls does
refresh only once; but `getOAuth2ClientForUser` itself has no such
dedup, so overlapping calls can each fire a provider refresh (two calls
in the interleaving of the counterexample), every caller still finishing
with a client. -/
theorem c4_concurrent_refresh_amended :
    (∀ (st : DbBootState) (fresh p : Nat), st.db = none → st.isConnecting = true →
      st.connectionPromise = some p → dbConnect st fresh = (p, st, 0)) ∧
    (runSchedule twoCallInit [false, false, false, true, true, true]).providerRefreshCalls = 1 ∧
    (runSchedule twoCallInit [false, true, false, false, true, true]).providerRefreshCalls = 2 ∧
    (runSchedule twoCallInit [false, true, false, false, true, true]).pc1 = RefreshPhase.finished ∧
    (runSchedule twoCallInit [false, true, false, false, true, true]).pc2 = RefreshPhase.finished := by
  refine ⟨?_, by decide, by decide, by decide, by decide⟩
  intro st fresh p h1 h2 h3
  simp [dbConnect, h1, h2, h3]

/-- Claim C4, witness: the connection dedup applied to a concrete
in-flight state, together with the concrete schedules. -/
theorem c4_concurrent_refresh_witness :
    dbConnect { db := none, isConnecting := true, connectionPromise := some 5 } 9 =
      (5, { db := none, isConnecting := true, connectionPromise := some 5 }, 0) := by
  exact c4_concurrent_refresh_amended.1
    { db := none, isConnecting := true, connectionPromise := some 5 } 9 5 rfl rfl rfl

/-! ## Claim C5 -/

/-- Claim C5, counterexample: the `/callback` verdict is not a function
of the state token and the clock, as a signed self-authenticating token
would make it: the very same query state at the very same time is
accepted when the session holds a matching copy and rejected when the
session holds none, so no HMAC-signature-plus-age criterion can describe
the implemented check. -/
theorem c5_signed_state_counterexample : ¬ claimStateVerificationSessionFree := by
  intro h
  exact absurd
    (h (some "a") (some "a") none (some 500) (some 500) 1000 (some "c"))
    (by decide)

/-- Claim C5 (amended): the state issued at `/signin` is a random nonce
stored in the session together with its issue instant, with no signature
of any kind; `/callback` accepts if and only if the returned state is
truthy, the session-stored state is truthy and equal to it, and the
session-stored timestamp is truthy and at least `now` minus 10 minutes.
A tampered state (one differing from the stored copy) and a missing
state are rejected identically (`Invalid state parameter`), while a
stale one is rejected as expired; a nonce issued by `/signin` and
presented fresh is accepted. -/
theorem c5_state_check_amended :
    (∀ (st sess : Option String) (ts : Option Nat) (now : Nat) (code : Option String),
      truthyOS code = true →
      (callbackStateCheck st sess ts now code = CallbackCheck.proceed ↔
        (truthyOS st = true ∧ truthyOS sess = true ∧ st = sess ∧ truthyON ts = true ∧
          (now : Int) - (tenMinutesMs : Int) ≤ (ts.getD 0 : Int)))) ∧
    (∀ (sess : Option String) (ts : Option Nat) (now : Nat) (code : Option String),
      callbackStateCheck none sess ts now code = CallbackCheck.invalidState) ∧
    (∀ (s ss : String) (ts : Option Nat) (now : Nat) (code : Option String),
      s ≠ ss →
      callbackStateCheck (some s) (some ss) ts now code = CallbackCheck.invalidState) ∧
    (∀ (nonce : String) (t now : Nat) (code : Option String),
      truthyS nonce = true → t ≠ 0 → truthyOS code = true →
      (now : Int) - (tenMinutesMs : Int) ≤ (t : Int) →
      callbackStateCheck (some (signinIssueState nonce t).1)
        (signinIssueState nonce t).2.1 (signinIssueState nonce t).2.2 now code =
        CallbackCheck.proceed) := by
  refine ⟨?_, ?_, ?_, ?_⟩
  · intro st sess ts now code hc
    unfold callbackStateCheck
    constructor
    · intro h
      split at h
      · exact absurd h (by simp)
      · split at h
        · exact absurd h (by simp)
        · rename_i hA hB
          push_neg at hA hB
          exact ⟨hA.1, hA.2.1, hA.2.2, hB.1, by omega⟩
    · rintro ⟨h1, h2, h3, h4, h5⟩
      rw [if_neg (by simp [h1, h2, h3]), if_neg (by simp [h4]; omega), if_neg (by simp [hc])]
  · intro sess ts now code
    unfold callbackStateCheck
    rw [if_pos]
    simp [truthyOS]
  · intro s ss ts now code hne
    unfold callbackStateCheck
    rw [if_pos]
    simp [hne]
  · intro nonce t now code h1 h2 hc h3
    unfold callbackStateCheck signinIssueState
    rw [if_neg (by simp [truthyOS, truthyS] at h1 ⊢; exact h1),
      if_neg (by simp [truthyON, h2]; omega), if_neg (by simp [hc])]

/-- Claim C5, witness: the amended acceptance condition evaluated on a
fresh matching nonce and on a mismatching state. -/
theorem c5_state_check_witness :
    (callbackStateCheck (some "n1") (some "n1") (some 500) 1000 (some "c") =
      CallbackCheck.proceed) ∧
    (callbackStateCheck (some "n2") (some "n1") (some 500) 1000 (some "c") =
      CallbackCheck.invalidState) := by
  constructor
  · exact (c5_state_check_amended.1 (some "n1") (some "n1") (some 500) 1000
      (some "c") (by decide)).mpr ⟨by decide, by decide, rfl, by decide, by decide⟩
  · exact c5_state_check_amended.2.2.1 "n2" "n1" (some 500) 1000 (some "c")
      (by decide)

/-! ## Claim C6 -/

/-- A status in the retryable set is one of the four listed codes. -/
theorem retryable_cases (c : Nat) (h : RETRYABLE_ERROR_CODES.contains c = true) :
    c = 429 ∨ c = 500 ∨ c = 503 ∨ c = 504 := by
  simpa [RETRYABLE_ERROR_CODES] using h

/-- Facing only retryable rejections, the retry loop of `listMessages`
consumes exactly its fuel in provider calls, sleeps one backoff per
extra attempt, and ends with the last retryable code. -/
theorem gmailLoop_transient (env : Nat → GmailAttempt)
    (h : ∀ n, transientGmailErr (env n)) :
    ∀ (fuel : Nat), 1 ≤ fuel → ∀ (attempt k : Nat) (backs : List Nat),
    (gmailLoop env fuel attempt k backs).nextIdx = k + fuel ∧
    (gmailLoop env fuel attempt k backs).backoffs.length = backs.length + (fuel - 1) ∧
    ∃ c, (gmailLoop env fuel attempt k backs).outcome = Except.error (some c) ∧
      RETRYABLE_ERROR_CODES.contains c = true := by
  intro fuel
  induction fuel with
  | zero => intro hf; exact absurd hf (by omega)
  | succ n ih =>
    intro _ attempt k backs
    have ht := h k
    cases hek : env k with
    | ok msgs => rw [hek] at ht; exact ht.elim
    | err code =>
      rw [hek] at ht
      cases code with
      | none => exact ht.elim
      | some c =>
        have hcont : RETRYABLE_ERROR_CODES.contains c = true := ht
        have hcm : c ∈ RETRYABLE_ERROR_CODES := by
          rcases retryable_cases c hcont with h4 | h4 | h4 | h4 <;>
            simp [h4, RETRYABLE_ERROR_CODES]
        have hne : ¬(c = 400 ∨ c = 401 ∨ c = 403) := by
          rcases retryable_cases c hcont with h4 | h4 | h4 | h4 <;> omega
        cases n with
        | zero =>
          refine ⟨?_, ?_, c, ?_, hcont⟩ <;> simp [gmailLoop, hek, hne, hcm]
        | succ m =>
          obtain ⟨ha, hb, c2, hc2, hcont2⟩ := ih (by omega) (attempt + 1) (k + 1)
            (backs ++ [2 ^ (attempt + 1) * 1000])
          have hlen : (backs ++ [2 ^ (attempt + 1) * 1000]).length =
              backs.length + 1 := by simp
          have hred : gmailLoop env (m + 1 + 1) attempt k backs =
              gmailLoop env (m + 1) (attempt + 1) (k + 1)
                (backs ++ [2 ^ (attempt + 1) * 1000]) := by
            conv_lhs => rw [gmailLoop]
            simp [hek, hne, hcm]
          rw [hred]
          exact ⟨by omega, by omega, c2, hc2, hcont2⟩

/-- Claim C6, counterexample: the wrapper is invoked with the default
`retryCount = 0` at every external call site, so a call facing only
transient errors (HTTP 429 on every attempt) makes exactly one provider
call, sleeps no backoff, and surfaces the rate-limit error immediately -
it does not retry `MAX_RETRIES = 3` times as the configured bound would
demand. -/
theorem c6_transient_retry_counterexample :
    (listMessagesModel all429Env 0).nextIdx = 1 ∧
    (listMessagesModel all429Env 0).backoffs = [] ∧
    (listMessagesModel all429Env 0).result = Except.error rateLimitedMsg ∧
    (1 : Nat) ≠ MAX_RETRIES + 1 := by
  refine ⟨rfl, rfl, rfl, by decide⟩

/-- Claim C6 (amended): the transient retry loop performs exactly
`retryCount + 1` attempts - `retryCount` is a parameter defaulting to 0,
raised only by the 401 recursion - with one exponential backoff slept
between consecutive attempts, and then surfaces the classified error
(`Rate limit exceeded` for 429, `temporarily unavailable` for
500/503/504); it never retries beyond that bound.  With the default
`retryCount = 0` this means one attempt and no retry. -/
theorem c6_transient_retry_amended :
    (∀ (rc : Nat) (env : Nat → GmailAttempt),
      (∀ n, transientGmailErr (env n)) →
      (listMessagesModel env rc).nextIdx = rc + 1 ∧
      (listMessagesModel env rc).backoffs.length = rc ∧
      (listMessagesModel env rc).acquisitions = 1 ∧
      ∃ m, (listMessagesModel env rc).result = Except.error m) ∧
    (listMessagesModel all429Env 3 =
      { result := Except.error rateLimitedMsg, acquisitions := 1, nextIdx := 4,
        backoffs := [2000, 4000, 8000] }) ∧
    (listMessagesModel all503Env 0 =
      { result := Except.error tempUnavailableMsg, acquisitions := 1, nextIdx := 1,
        backoffs := [] }) := by
  refine ⟨?_, rfl, rfl⟩
  intro rc env h
  obtain ⟨hidx, hlen, c, hout, hcont⟩ := gmailLoop_transient env h (rc + 1) (by omega) 0 0 []
  have hne : ¬(some c = some (401 : Nat)) := by
    rcases retryable_cases c hcont with h4 | h4 | h4 | h4 <;> simp [h4]
  have hred : listMessagesModel env rc =
      { result := Except.error (classifyGmailError (some c)), acquisitions := 1,
        nextIdx := (gmailLoop env (rc + 1) 0 0 []).nextIdx,
        backoffs := (gmailLoop env (rc + 1) 0 0 []).backoffs } := by
    simp only [listMessagesModel, listMessagesGo, MAX_RETRIES]
    rw [hout]
    simp [hne]
  rw [hred]
  exact ⟨by simpa using hidx, by simpa using hlen, rfl,
    classifyGmailError (some c), rfl⟩

/-- Claim C6, witness: the amended count statement evaluated at
`retryCount = 2` against the all-429 environment. -/
theorem c6_transient_retry_witness :
    (listMessagesModel all429Env 2).nextIdx = 3 ∧
    (listMessagesModel all429Env 2).backoffs.length = 2 ∧
    (listMessagesModel all429Env 2).acquisitions = 1 ∧
    ∃ m, (listMessagesModel all429Env 2).result = Except.error m := by
  exact c6_transient_retry_amended.1 2 all429Env (fun _ => rfl)

/-! ## Claim C7 -/

/-- The wrapper acquires a client at most `fuel` times. -/
theorem listMessagesGo_acqs_le (env : Nat → GmailAttempt) :
    ∀ (fuel rc k acqs : Nat) (backs : List Nat),
    (listMessagesGo env fuel rc k acqs backs).acquisitions ≤ acqs + fuel := by
  intro fuel
  induction fuel with
  | zero => intro rc k acqs backs; simp [listMessagesGo]
  | succ n ih =>
    intro rc k acqs backs
    simp only [listMessagesGo]
    repeat' split
    all_goals first
      | exact Nat.le_trans (ih _ _ _ _) (by omega)
      | (simp; try omega)

/-- Claim C7, counterexample: with the provider rejecting every list
call as 401, `listMessages` acquires a client through the credential
manager four times - the entry call plus three 401-triggered recursive
retries (`retryCount < MAX_RETRIES` with `MAX_RETRIES = 3`) - before
surfacing the re-authenticate error, not the two acquisitions (one
refresh-and-retry cycle) the claim states. -/
theorem c7_unauthorized_retry_counterexample :
    (listMessagesModel all401Env 0).acquisitions = 4 ∧
    (listMessagesModel all401Env 0).result = Except.error reauthMsg ∧
    (4 : Nat) ≠ 2 := by
  refine ⟨rfl, rfl, by decide⟩

/-- Claim C7 (amended): on an Unauthorized rejection the wrapper
recurses with `retryCount + 1`, re-acquiring a client through the
credential manager, while `retryCount < MAX_RETRIES = 3`: a call that
keeps receiving 401 performs three refresh-and-retry cycles (four client
acquisitions in total) before giving up with the re-authenticate error,
and a 401 answered by a success on the retry resolves after exactly one
extra acquisition. -/
theorem c7_unauthorized_retry_amended :
    (∀ (env : Nat → GmailAttempt) (msgs : List Nat),
      env 0 = GmailAttempt.err (some 401) → env 1 = GmailAttempt.ok msgs →
      listMessagesModel env 0 =
        { result := Except.ok msgs, acquisitions := 2, nextIdx := 2, backoffs := [] }) ∧
    (∀ (env : Nat → GmailAttempt) (rc : Nat),
      (listMessagesModel env rc).acquisitions ≤ MAX_RETRIES + 1) ∧
    ((listMessagesModel all401Env 0).acquisitions = 4 ∧
      (listMessagesModel all401Env 0).result = Except.error reauthMsg) := by
  refine ⟨?_, ?_, ⟨rfl, rfl⟩⟩
  · intro env msgs h0 h1
    simp [listMessagesModel, listMessagesGo, gmailLoop, h0, h1, MAX_RETRIES]
  · intro env rc
    simpa using listMessagesGo_acqs_le env (MAX_RETRIES + 1) rc 0 0 []

/-- Claim C7, witness: the one-extra-cycle resolution applied to the
concrete environment answering 401 then success. -/
theorem c7_unauthorized_retry_witness :
    listMessagesModel
      (fun n => if n = 0 then GmailAttempt.err (some 401) else GmailAttempt.ok [7]) 0 =
      { result := Except.ok [7], acquisitions := 2, nextIdx := 2, backoffs := [] } := by
  exact c7_unauthorized_retry_amended.1
    (fun n => if n = 0 then GmailAttempt.err (some 401) else GmailAttempt.ok [7])
    [7] rfl rfl

/-! ## Claim C8 -/

/-- Claim C8 (confirmed): a request with no authenticated user returns
the fixed 21-item demo dataset - not an error - flagged `mock: true`
with reason `not_authenticated`; the same substitution happens with
reason `database_unavailable` when the credential-store connection is
down and with reason `gmail_api_error` when the provider call rejects. -/
theorem c8_mock_fallback :
    (∀ (userId : Option String) (useMock dbc : Bool) (g : Except String (List String)),
      truthyOS userId = false →
      messagesHandler userId useMock dbc g =
        { messages := getMockEmails, count := 21, mock := true,
          reason := some "not_authenticated" }) ∧
    (∀ (uid : String) (g : Except String (List String)),
      truthyOS (some uid) = true →
      messagesHandler (some uid) false false g =
        { messages := getMockEmails, count := 21, mock := true,
          reason := some "database_unavailable" }) ∧
    (∀ (uid e : String),
      truthyOS (some uid) = true →
      messagesHandler (some uid) false true (Except.error e) =
        { messages := getMockEmails, count := 21, mock := true,
          reason := some "gmail_api_error" }) ∧
    getMockEmails.length = 21 := by
  refine ⟨?_, ?_, ?_, by decide⟩
  · intro userId useMock dbc g h
    simp [messagesHandler, h, getMockEmails, mockEmailIds]
  · intro uid g h
    simp [messagesHandler, h, getMockEmails, mockEmailIds]
  · intro uid e h
    simp [messagesHandler, h, getMockEmails, mockEmailIds]

/-- Claim C8, witness: the three fallbacks evaluated on concrete
requests. -/
theorem c8_mock_fallback_witness :
    (messagesHandler none false true (Except.ok ["real"]) =
      { messages := getMockEmails, count := 21, mock := true,
        reason := some "not_authenticated" }) ∧
    (messagesHandler (some "u1") false false (Except.ok ["real"]) =
      { messages := getMockEmails, count := 21, mock := true,
        reason := some "database_unavailable" }) ∧
    (messagesHandler (some "u1") false true (Except.error "boom") =
      { messages := getMockEmails, count := 21, mock := true,
        reason := some "gmail_api_error" }) := by
  refine ⟨?_, ?_, ?_⟩
  · exact c8_mock_fallback.1 none false true (Except.ok ["real"]) rfl
  · exact c8_mock_fallback.2.1 "u1" (Except.ok ["real"]) (by decide)
  · exact c8_mock_fallback.2.2.1 "u1" "boom" (by decide)

/-! ## Claim C9 -/

/-- Claim C9, counterexample: on a live state whose ping fails,
`healthCheck` reports false but leaves the internal state exactly as it
was: `isConnected()` still reports true immediately afterwards, and the
next acquire returns the same dead handle without re-establishing. -/
theorem c9_healthcheck_counterexample :
    (healthCheck liveConn false).1 = false ∧
    (healthCheck liveConn false).2 = liveConn ∧
    isConnected liveConn = true ∧
    connectAcquire liveConn = (some 1, false) := by
  decide

/-- Claim C9 (amended): `healthCheck` reports false when there is no db
handle or the ping throws, but never demotes state: the state is
returned unchanged on every path, a connected state keeps reporting
`isConnected() = true` after a failed check, and the next acquire
returns the existing handle instead of reconnecting.  Only the client
`close` event listener clears the handle and makes `isConnected()`
false. -/
theorem c9_healthcheck_amended :
    (∀ (st : DbConnState) (pingOk : Bool), (healthCheck st pingOk).2 = st) ∧
    (∀ (st : DbConnState), st.db = none → (healthCheck st true).1 = false) ∧
    (∀ (st : DbConnState), (healthCheck st false).1 = false) ∧
    (∀ (st : DbConnState) (d : Nat), st.db = some d →
      connectAcquire st = (some d, false)) ∧
    (∀ (st : DbConnState), isConnected (onCloseEvent st) = false) := by
  refine ⟨?_, ?_, ?_, ?_, ?_⟩
  · intro st pingOk; cases h : st.db <;> simp [healthCheck, h]
  · intro st h; simp [healthCheck, h]
  · intro st; cases h : st.db <;> simp [healthCheck, h]
  · intro st d h; simp [connectAcquire, h]
  · intro st; simp [isConnected, onCloseEvent]

/-- Claim C9, witness: the amended statement evaluated on the live
connection state with a failing ping. -/
theorem c9_healthcheck_witness :
    (healthCheck liveConn false).2 = liveConn ∧
    (healthCheck liveConn false).1 = false ∧
    connectAcquire liveConn = (some 1, false) ∧
    isConnected (onCloseEvent liveConn) = false := by
  refine ⟨c9_healthcheck_amended.1 liveConn false,
    c9_healthcheck_amended.2.2.1 liveConn,
    c9_healthcheck_amended.2.2.2.1 liveConn 1 rfl,
    c9_healthcheck_amended.2.2.2.2 liveConn⟩

/-! ## Claim C10 -/

/-- Claim C10 (confirmed): `getTokens` stores the exchanged tokens on
the shared module-level `oauth2Client` via `setCredentials`, so
completing one handshake mutates global state: after any handshake the
shared client carries that handshake's tokens, and a run in which some
other user's handshake happened earlier observes different credentials
on the shared client than a run in which it did not. -/
theorem c10_shared_client_mutation :
    (∀ (cl : SharedOAuthClient) (t : GoogleTokens),
      (getTokens cl t).2.credentials = some t) ∧
    (getTokens initialOauth2Client sampleTokens).2.credentials ≠
      initialOauth2Client.credentials := by
  exact ⟨fun cl t => rfl, by decide⟩

end AIAgent
